import Mathlib

/-!
Verification of the vitess `healthStreamer`
(`go/vt/vttablet/tabletserver/health_streamer.go`).

The Go code is shallowly embedded as a pure state machine.  Protobuf
messages live on an explicit heap (`List StreamHealthResponse`, addresses
are indices) so that pointer sharing and `proto.Clone` are faithfully
represented: a subscriber channel buffers *addresses*, `proto.Clone`
allocates a fresh cell, and in-place mutation of the stored snapshot is a
`heapWrite` at the streamer's `stateAddr`.  Machine integers are `Nat`/`Int`
with explicit reductions where the code narrows (`uint32(lag.Seconds())`).
External collaborators (`blpFunc`, QPS rates, wall clock, the MySQL
connection used by `reload`) are passed in as explicit inputs/oracles, as
the code reads them exactly once per operation.
-/

/-- Tablet roles, from `topodatapb.TabletType`.  Only the constructors the
streamer distinguishes are modelled; `PRIMARY` is the one the code tests. -/
inductive TabletType where
  | UNKNOWN
  | PRIMARY
  | REPLICA
  | RDONLY
deriving DecidableEq, Repr, Inhabited

/-- Go's `querypb.Target`: what the tablet currently serves. -/
structure Target where
  keyspace : String
  shard : String
  tabletType : TabletType
deriving DecidableEq, Repr, Inhabited

/-- Go's `querypb.RealtimeStats`.  The field `qps` is a float in Go; the streamer only
copies the collaborator's value through unchanged, so it is carried as an
opaque integer-valued sample here. -/
structure RealtimeStats where
  healthError : String
  replicationLagSeconds : Nat
  binlogPlayersCount : Int
  filteredReplicationLagSeconds : Nat
  qps : Int
  tableSchemaChanged : List String
deriving DecidableEq, Repr, Inhabited

/-- Go's `querypb.StreamHealthResponse`: the health snapshot record. -/
structure StreamHealthResponse where
  target : Target
  tabletAlias : String
  serving : Bool
  tabletExternallyReparentedTimestamp : Int
  realtimeStats : RealtimeStats
deriving DecidableEq, Repr, Inhabited

/-! Section: the heap of protobuf messages

Addresses are indices into a list.  `heapAlloc` (↝ `proto.Clone`) appends a
fresh cell; `heapWrite` (↝ field assignment through a pointer) overwrites a
cell in place. -/

abbrev Addr := Nat

abbrev Heap := List StreamHealthResponse

def heapRead (h : Heap) (a : Addr) : StreamHealthResponse :=
  h.getD a default

def heapWrite (h : Heap) (a : Addr) (s : StreamHealthResponse) : Heap :=
  h.set a s

/-- A subscriber channel: `make(chan *querypb.StreamHealthResponse, bufSize)`.
`buf` holds the buffered message pointers, oldest first.  `closed` is Go's
channel-closed flag (buffered items stay readable after `close`).
`registered` records membership in `hs.clients`; `delete(hs.clients, ch)`
clears it while the `Stream` session keeps its handle on the channel. -/
structure Channel where
  cap : Nat
  buf : List Addr
  closed : Bool
  registered : Bool
deriving DecidableEq, Repr, Inhabited

/-- One entry of the diagnostics history (`historyRecord`). -/
structure HistoryRecord where
  time : Int
  serving : Bool
  tabletType : TabletType
  lagNs : Nat
  err : Option String
deriving DecidableEq, Repr, Inhabited

/-- Modelled from the spec: the `go/history` package is not under `src/`;
§3 specifies a fixed-capacity (5) FIFO, oldest evicted first.  Newest
record at the head. -/
def historyAdd (h : List HistoryRecord) (r : HistoryRecord) : List HistoryRecord :=
  (r :: h).take 5

/-- The `healthStreamer` struct.  `opened`/`ctxGen` model the
`cancel != nil` test and the context created by `Open` (a fresh generation
per `Open`); `chans` is the table of every channel ever created, with the
registry `hs.clients` being the channels whose `registered` flag is set. -/
structure HealthStreamer where
  heap : Heap
  stateAddr : Addr
  chans : List Channel
  opened : Bool
  ctxGen : Nat
  poolOpen : Bool
  ticksRunning : Bool
  initSuccess : Bool
  signalWhenSchemaChange : Bool
  history : List HistoryRecord
  degradedThresholdNs : Nat
  unhealthyThresholdNs : Nat
  bufferSize : Nat
deriving DecidableEq, Repr, Inhabited

/-- The stored (authoritative) snapshot `hs.state`. -/
def readState (hs : HealthStreamer) : StreamHealthResponse :=
  heapRead hs.heap hs.stateAddr

/-- Well-formedness: the stored snapshot's address is a live heap cell. -/
def WF (hs : HealthStreamer) : Prop :=
  hs.stateAddr < hs.heap.length

instance (hs : HealthStreamer) : Decidable (WF hs) := by
  unfold WF; infer_instance

/-! Section: Broadcaster -/

/-- One iteration of `broadCastToClients`' loop for one registered channel:
non-blocking send; on a full buffer, `close(ch)` and `delete(hs.clients, ch)`. -/
def sendTo (a : Addr) (ch : Channel) : Channel :=
  if ch.registered then
    if ch.buf.length < ch.cap then
      { ch with buf := ch.buf ++ [a] }
    else
      { ch with closed := true, registered := false }
  else ch

/-- Function `broadCastToClients`: fan the message at `a` out to every registered
channel, evicting the full ones. -/
def broadCastToClients (hs : HealthStreamer) (a : Addr) : HealthStreamer :=
  { hs with chans := hs.chans.map (sendTo a) }

/-! Section: ChangeState -/

/-- The collaborator values `ChangeState` reads exactly once per call:
`blpFunc()`, `hs.stats.QPSRates.TotalRate()` and `time.Now()` for the
history record, bundled with the caller's arguments. -/
structure ChangeStateInput where
  tabletType : TabletType
  terTimestampUnix : Int
  lagNs : Nat
  err : Option String
  serving : Bool
  blpFilteredLag : Nat
  blpCount : Int
  qps : Int
  now : Int
deriving DecidableEq, Repr, Inhabited

/-- Computes `uint32(lag.Seconds())`: whole seconds of a nanosecond duration,
narrowed to 32 bits.  (Within `uint32` range the float detour in Go is
exact truncation.) -/
def lagSecondsU32 (lagNs : Nat) : Nat :=
  (lagNs / 1000000000) % 4294967296

/-- The in-place field updates `ChangeState` performs on `hs.state`. -/
def applyChange (s : StreamHealthResponse) (i : ChangeStateInput) : StreamHealthResponse :=
  { s with
    target := { s.target with tabletType := i.tabletType }
    tabletExternallyReparentedTimestamp :=
      if i.tabletType = TabletType.PRIMARY then i.terTimestampUnix else 0
    serving := i.serving
    realtimeStats := { s.realtimeStats with
      healthError := match i.err with | some m => m | none => ""
      replicationLagSeconds := lagSecondsU32 i.lagNs
      filteredReplicationLagSeconds := i.blpFilteredLag
      binlogPlayersCount := i.blpCount
      qps := i.qps } }

/-- Method `ChangeState`: mutate the stored snapshot in place, `proto.Clone` it
(fresh heap cell), broadcast the clone's address, append a history
record.  Total — the Go method returns nothing and cannot fail. -/
def ChangeState (hs : HealthStreamer) (i : ChangeStateInput) : HealthStreamer :=
  let s1 := applyChange (readState hs) i
  let heap1 := heapWrite hs.heap hs.stateAddr s1
  let a := heap1.length
  let hs1 := broadCastToClients { hs with heap := heap1 ++ [s1] } a
  let rec1 : HistoryRecord :=
    { time := i.now, serving := s1.serving, tabletType := s1.target.tabletType,
      lagNs := i.lagNs, err := i.err }
  { hs1 with history := historyAdd hs1.history rec1 }

/-- A sequence of `ChangeState` calls. -/
def runChanges (hs : HealthStreamer) (ins : List ChangeStateInput) : HealthStreamer :=
  ins.foldl ChangeState hs

/-- The successive values the stored snapshot takes (and hence the
successive clone values broadcast) along a `ChangeState` sequence. -/
def snapshotsOf (s : StreamHealthResponse) : List ChangeStateInput → List StreamHealthResponse
  | [] => []
  | i :: rest => applyChange s i :: snapshotsOf (applyChange s i) rest

/-! Section: Registration -/

/-- Method `register`: gives `nil, nil` when closed; otherwise create a channel of
capacity `streamHealthBufferSize`, add it to the registry, and immediately
enqueue a clone of the current state.  Returns the new channel's index and
the shutdown-context generation. -/
def freshChannel (hs : HealthStreamer) : Channel :=
  { cap := hs.bufferSize, buf := [hs.heap.length], closed := false, registered := true }

/-- Method `register` proper: the channel above is created, added to the
registry, and primed with the clone of the current state allocated at
address `hs.heap.length`. -/
def register (hs : HealthStreamer) : HealthStreamer × Option (Nat × Nat) :=
  if hs.opened then
    ({ hs with heap := hs.heap ++ [readState hs], chans := hs.chans ++ [freshChannel hs] },
     some (hs.chans.length, hs.ctxGen))
  else (hs, none)

/-- Method `unregister`: performs `delete(hs.clients, ch)` — unconditional, idempotent. -/
def unregister (hs : HealthStreamer) (j : Nat) : HealthStreamer :=
  { hs with chans := hs.chans.set j ({ hs.chans.getD j default with registered := false }) }

/-! Section: Lifecycle -/

/-- Method `Open`: no-op when `cancel != nil`; otherwise create a fresh context
and, when configured for schema-change signalling (`conns != nil`), open
the pool and start the reload timer. -/
def Open (hs : HealthStreamer) : HealthStreamer :=
  if hs.opened then hs
  else
    let hs1 := { hs with opened := true, ctxGen := hs.ctxGen + 1 }
    if hs1.signalWhenSchemaChange then
      { hs1 with poolOpen := true, ticksRunning := true }
    else hs1

/-- Method `Close`: no-op when `cancel == nil`; otherwise stop the timer and the
pool (when they exist), cancel the context, clear `cancel`. -/
def Close (hs : HealthStreamer) : HealthStreamer :=
  if hs.opened then
    let hs1 :=
      if hs.signalWhenSchemaChange then
        { hs with ticksRunning := false, poolOpen := false }
      else hs
    { hs1 with opened := false }
  else hs

/-! Section: SetUnhealthyThreshold -/

/-- Method `SetUnhealthyThreshold`: store the new threshold, clone the current
state and fan it out with the same eviction policy. -/
def SetUnhealthyThreshold (hs : HealthStreamer) (v : Nat) : HealthStreamer :=
  let hs1 := { hs with unhealthyThresholdNs := v }
  let a := hs1.heap.length
  broadCastToClients { hs1 with heap := hs1.heap ++ [readState hs1] } a

/-! Section: AppendDetails -/

/-- Modelled from the spec: the CSS classes `healthyClass` / `unhappyClass`
(degraded) / `unhealthyClass` used by `AppendDetails` live in the
surrounding package, outside `src/`; §4.7 names them healthy / degraded /
unhealthy. -/
inductive HealthClass where
  | healthy
  | unhappy
  | unhealthy
deriving DecidableEq, Repr, Inhabited

/-- Modelled from the spec: the `kv` row type (`Key`, `Class`, `Value`)
used by the diagnostics page lives outside `src/`. -/
structure kv where
  Key : String
  Class : HealthClass
  Value : String
deriving DecidableEq, Repr, Inhabited

/-- Method `AppendDetails`: unchanged for PRIMARY; otherwise append a replication
lag row classified against the thresholds (`sbm` is the lag in
nanoseconds) and, when `healthError` is non-empty, an error row. -/
def AppendDetails (hs : HealthStreamer) (details : List kv) : List kv :=
  let s := readState hs
  if s.target.tabletType = TabletType.PRIMARY then details
  else
    let sbm := s.realtimeStats.replicationLagSeconds * 1000000000
    let cls :=
      if sbm > hs.unhealthyThresholdNs then HealthClass.unhealthy
      else if sbm > hs.degradedThresholdNs then HealthClass.unhappy
      else HealthClass.healthy
    let details1 := details ++
      [{ Key := "Replication Lag", Class := cls,
         Value := toString s.realtimeStats.replicationLagSeconds ++ "s" }]
    if s.realtimeStats.healthError ≠ "" then
      details1 ++
        [{ Key := "Replication Error", Class := HealthClass.unhappy,
           Value := s.realtimeStats.healthError }]
    else details1

/-! Section: reload (schema-drift detection) -/

/-- Oracle for the backing store during one `reload` cycle: whether each
step succeeds, and the changed-table list the detection query streams
back.  `initStmts` are the per-statement outcomes of `InitSchemaLocked`'s
`mysql.VTDatabaseInit` loop. -/
structure ReloadDB where
  connOk : Bool
  initStmts : List Bool
  detectOk : Bool
  detectTables : List String
  beginOk : Bool
  delOk : Bool
  updOk : Bool
  commitOk : Bool
deriving DecidableEq, Repr, Inhabited

/-- Method `InitSchemaLocked`: run the `mysql.VTDatabaseInit` statements in
order; the first failure returns `(false, err)`, otherwise `(true, none)`. -/
def InitSchemaLocked : List Bool → Bool × Option String
  | [] => (true, none)
  | ok :: rest => if ok then InitSchemaLocked rest else (false, some "init")

/-- The mutation tail of `reload` once the transaction has committed
(health_streamer.go lines 387-392): set the transient
`TableSchemaChanged` on the stored snapshot, `proto.Clone` it, broadcast
the clone, then set the stored snapshot's field back to `nil`. -/
def setTables (s : StreamHealthResponse) (ts : List String) : StreamHealthResponse :=
  { s with realtimeStats := { s.realtimeStats with tableSchemaChanged := ts } }

/-- Continuation of the comment above: `reloadApply hs tables` performs the
assignment `setTables · tables` on the stored snapshot, clones and
broadcasts, then performs `setTables · []` (the `nil` assignment) on the
stored snapshot. -/
def reloadApply (hs : HealthStreamer) (tables : List String) : HealthStreamer :=
  let s1 := setTables (readState hs) tables
  let heap1 := heapWrite hs.heap hs.stateAddr s1
  let a := heap1.length
  let hs2 := broadCastToClients { hs with heap := heap1 ++ [s1] } a
  let s3 := setTables (heapRead hs2.heap hs2.stateAddr) []
  { hs2 with heap := heapWrite hs2.heap hs2.stateAddr s3 }

/-- Method `reload`: no-op unless PRIMARY; acquire the connection; one-time
schema-shadow init gated by `initSuccess`; run the detection query; if
tables changed, begin/clear/rewrite/commit, then set the transient
`TableSchemaChanged` on the stored snapshot, clone and broadcast it, and
clear the field again.  Returns the mutated streamer and the error, if
any (errors leave `initSuccess` progress in place, as the Go field
assignment does). -/
def reload (hs : HealthStreamer) (db : ReloadDB) : HealthStreamer × Option String :=
  if (readState hs).target.tabletType ≠ TabletType.PRIMARY then (hs, none)
  else if !db.connOk then (hs, some "conn")
  else
    let initStep : HealthStreamer × Option String :=
      if hs.initSuccess then (hs, none)
      else
        match InitSchemaLocked db.initStmts with
        | (ok, e) =>
          match e with
          | some msg => ({ hs with initSuccess := ok }, some msg)
          | none => ({ hs with initSuccess := ok }, none)
    match initStep with
    | (hs1, some e) => (hs1, some e)
    | (hs1, none) =>
      if !db.detectOk then (hs1, some "detect")
      else if db.detectTables.isEmpty then (hs1, none)
      else if !db.beginOk then (hs1, some "begin")
      else if !db.delOk then (hs1, some "del")
      else if !db.updOk then (hs1, some "upd")
      else if !db.commitOk then (hs1, some "commit")
      else (reloadApply hs1 db.detectTables, none)

/-! Section: Stream session loop -/

/-- Result of `callback(shr)`: success, `io.EOF`, or another error. -/
inductive CbRes where
  | ok
  | eof
  | err (e : String)
deriving DecidableEq, Repr, Inhabited

/-- The three events of the `select` in `Stream`'s loop. -/
inductive Choice where
  | ctx
  | hsctx
  | chan
deriving DecidableEq, Repr, Inhabited

/-- How a `Stream` call terminates.  `blocked` marks a run whose fuel
ran out while the `select` had no ready case (the Go loop would still be
waiting). -/
inductive StreamResult where
  | clean
  | unavailable
  | resourceExhausted
  | sinkErr (e : String)
  | blocked
deriving DecidableEq, Repr, Inhabited

/-- A channel receive is ready when a message is buffered or the channel
is closed (a closed channel yields its buffered items, then `ok=false`). -/
def chanReady (ch : Channel) : Bool :=
  !ch.buf.isEmpty || ch.closed

/-- Go's `select` picks uniformly among the ready cases; the model takes a
schedule of preferred cases and falls back to a fixed order when the
preferred case is not ready.  Quantifying over schedules covers every
`select` behaviour.  `none` means no case is ready (the `select` blocks). -/
def pickEvent (pref : Option Choice) (ctxDone hsDone : Bool) (ch : Channel) : Option Choice :=
  let ready : Choice → Bool := fun c =>
    match c with
    | Choice.ctx => ctxDone
    | Choice.hsctx => hsDone
    | Choice.chan => chanReady ch
  let fallback : Option Choice :=
    if ctxDone then some Choice.ctx
    else if hsDone then some Choice.hsctx
    else if chanReady ch then some Choice.chan
    else none
  match pref with
  | some c => if ready c then some c else fallback
  | none => fallback

/-- The `for { select { ... } }` loop of `Stream`, for one session:
caller cancellation → clean; shutdown context → Unavailable; channel
closed and drained → ResourceExhausted; otherwise deliver the buffered
message to the callback (`io.EOF` → clean, other errors propagate). -/
def streamLoop (heap : Heap) (ctxDone hsDone : Bool) (cb : StreamHealthResponse → CbRes) :
    Nat → List Choice → Channel → StreamResult
  | 0, _, _ => StreamResult.blocked
  | fuel + 1, sched, ch =>
    match pickEvent sched.head? ctxDone hsDone ch with
    | none => StreamResult.blocked
    | some Choice.ctx => StreamResult.clean
    | some Choice.hsctx => StreamResult.unavailable
    | some Choice.chan =>
      match ch.buf with
      | [] => StreamResult.resourceExhausted
      | a :: rest =>
        match cb (heapRead heap a) with
        | CbRes.ok => streamLoop heap ctxDone hsDone cb fuel sched.tail { ch with buf := rest }
        | CbRes.eof => StreamResult.clean
        | CbRes.err e => StreamResult.sinkErr e

/-- Method `Stream` in the absence of concurrent broadcasts: register (failing
with Unavailable when the streamer is not open), run the session loop on
the fresh channel, unregister on every exit path.  (Named `StreamCall`
because `Stream` is taken by the Lean prelude.) -/
def StreamCall (hs : HealthStreamer) (ctxDone : Bool) (cb : StreamHealthResponse → CbRes)
    (fuel : Nat) (sched : List Choice) : HealthStreamer × StreamResult :=
  match register hs with
  | (hs1, none) => (hs1, StreamResult.unavailable)
  | (hs1, some (j, _)) =>
    let res := streamLoop hs1.heap ctxDone false cb fuel sched (hs1.chans.getD j default)
    (unregister hs1 j, res)

/-! Section: concrete fixtures used by witnesses and counterexamples -/

/-- The construction-time stats record (`newHealthStreamer` seeds
`HealthError` with the uninitialized sentinel). -/
def exStats : RealtimeStats where
  healthError := "tabletserver uninitialized"
  replicationLagSeconds := 0
  binlogPlayersCount := 0
  filteredReplicationLagSeconds := 0
  qps := 0
  tableSchemaChanged := []

/-- A concrete initial snapshot. -/
def exSnap : StreamHealthResponse where
  target := { keyspace := "ks", shard := "0", tabletType := TabletType.REPLICA }
  tabletAlias := "zone1-100"
  serving := false
  tabletExternallyReparentedTimestamp := 0
  realtimeStats := exStats

/-- A fresh registered subscriber channel of capacity 3. -/
def exChan : Channel where
  cap := 3
  buf := []
  closed := false
  registered := true

/-- A concrete open streamer with two registered subscribers. -/
def exStreamer : HealthStreamer where
  heap := [exSnap]
  stateAddr := 0
  chans := [exChan, exChan]
  opened := true
  ctxGen := 1
  poolOpen := true
  ticksRunning := true
  initSuccess := true
  signalWhenSchemaChange := true
  history := []
  degradedThresholdNs := 30000000000
  unhealthyThresholdNs := 60000000000
  bufferSize := 3

/-- A concrete `ChangeState` argument tuple (role PRIMARY, 45s lag). -/
def exInput : ChangeStateInput where
  tabletType := TabletType.PRIMARY
  terTimestampUnix := 1700000000
  lagNs := 45000000000
  err := none
  serving := true
  blpFilteredLag := 2
  blpCount := 1
  qps := 7
  now := 1700000100

/-- The same call with role REPLICA and no error — the §8 classification
example (degraded 30s, unhealthy 60s, lag 45s). -/
def c9Input : ChangeStateInput :=
  { exInput with tabletType := TabletType.REPLICA, err := none }

/-- Streamer observed by the classification example: one `ChangeState`
with 45s lag as a REPLICA. -/
def c9Streamer : HealthStreamer := ChangeState exStreamer c9Input

/-- A closed streamer (after `Close`, or never opened). -/
def c6ClosedStreamer : HealthStreamer := { exStreamer with opened := false }

/-- The overflow fixture: capacity-1 subscriber already holding its
registration snapshot (address 1), stored snapshot at address 0. -/
def c2Chan : Channel where
  cap := 1
  buf := [1]
  closed := false
  registered := true

def c2Streamer : HealthStreamer :=
  { exStreamer with heap := [exSnap, exSnap], chans := [c2Chan] }

/-- A streamer serving as PRIMARY (one `ChangeState` applied to the base
fixture), used by the reload witnesses. -/
def c3Streamer : HealthStreamer := ChangeState exStreamer exInput

/-- An all-steps-succeed backing-store oracle reporting drift on
`t1, t2`. -/
def c3DB : ReloadDB where
  connOk := true
  initStmts := [true, true]
  detectOk := true
  detectTables := ["t1", "t2"]
  beginOk := true
  delOk := true
  updOk := true
  commitOk := true

/-- A backing store whose schema rewrite statement fails mid-transaction. -/
def c4DB : ReloadDB :=
  { c3DB with updOk := false }

/-! Section: Heap lemmas -/

theorem heapWrite_length (h : Heap) (a : Addr) (s : StreamHealthResponse) :
    (heapWrite h a s).length = h.length := by
  simp [heapWrite]

theorem heapRead_write_self (h : Heap) (a : Addr) (s : StreamHealthResponse)
    (ha : a < h.length) : heapRead (heapWrite h a s) a = s := by
  simp [heapRead, heapWrite, List.getD_eq_getElem?_getD, List.getElem?_set_self, ha]

theorem heapRead_write_ne (h : Heap) (a b : Addr) (s : StreamHealthResponse)
    (hab : b ≠ a) : heapRead (heapWrite h a s) b = heapRead h b := by
  simp [heapRead, heapWrite, List.getD_eq_getElem?_getD, List.getElem?_set_ne, hab.symm]

theorem heapRead_append_lt (h l : Heap) (a : Addr) (ha : a < h.length) :
    heapRead (h ++ l) a = heapRead h a := by
  simp [heapRead, List.getD_eq_getElem?_getD, List.getElem?_append, ha]

theorem heapRead_append_self (h : Heap) (s : StreamHealthResponse) :
    heapRead (h ++ [s]) h.length = s := by
  simp [heapRead, List.getD_eq_getElem?_getD, List.getElem?_concat_length]

/-! Section: Structural lemmas about `ChangeState` and broadcasting -/

theorem ChangeState_heap (hs : HealthStreamer) (i : ChangeStateInput) :
    (ChangeState hs i).heap =
      heapWrite hs.heap hs.stateAddr (applyChange (readState hs) i)
        ++ [applyChange (readState hs) i] := rfl

theorem ChangeState_stateAddr (hs : HealthStreamer) (i : ChangeStateInput) :
    (ChangeState hs i).stateAddr = hs.stateAddr := rfl

theorem ChangeState_chans (hs : HealthStreamer) (i : ChangeStateInput) :
    (ChangeState hs i).chans = hs.chans.map (sendTo hs.heap.length) := by
  simp [ChangeState, broadCastToClients, heapWrite]

theorem ChangeState_heap_length (hs : HealthStreamer) (i : ChangeStateInput) :
    (ChangeState hs i).heap.length = hs.heap.length + 1 := by
  simp [ChangeState_heap, heapWrite]

theorem ChangeState_WF (hs : HealthStreamer) (i : ChangeStateInput) (hwf : WF hs) :
    WF (ChangeState hs i) := by
  unfold WF at hwf ⊢
  rw [ChangeState_heap_length, ChangeState_stateAddr]
  exact Nat.lt_succ_of_lt hwf

theorem readState_ChangeState (hs : HealthStreamer) (i : ChangeStateInput) (hwf : WF hs) :
    readState (ChangeState hs i) = applyChange (readState hs) i := by
  unfold WF at hwf
  rw [readState, ChangeState_heap, ChangeState_stateAddr,
    heapRead_append_lt _ _ _ (by rw [heapWrite_length]; exact hwf),
    heapRead_write_self _ _ _ hwf]

/-- Broadcasts never write the heap: a cell below the old stored snapshot
that is not the stored snapshot itself keeps its value across a
`ChangeState`. -/
theorem heapRead_ChangeState_frame (hs : HealthStreamer) (i : ChangeStateInput) (a : Addr)
    (hlt : a < hs.heap.length) (hne : a ≠ hs.stateAddr) :
    heapRead (ChangeState hs i).heap a = heapRead hs.heap a := by
  rw [ChangeState_heap,
    heapRead_append_lt _ _ _ (by rw [heapWrite_length]; exact hlt),
    heapRead_write_ne _ _ _ _ hne]

theorem heapRead_ChangeState_clone (hs : HealthStreamer) (i : ChangeStateInput) :
    heapRead (ChangeState hs i).heap hs.heap.length = applyChange (readState hs) i := by
  rw [ChangeState_heap]
  have := heapRead_append_self (heapWrite hs.heap hs.stateAddr (applyChange (readState hs) i))
    (applyChange (readState hs) i)
  rwa [heapWrite_length] at this

theorem runChanges_nil (hs : HealthStreamer) : runChanges hs [] = hs := rfl

theorem runChanges_cons (hs : HealthStreamer) (i : ChangeStateInput) (rest : List ChangeStateInput) :
    runChanges hs (i :: rest) = runChanges (ChangeState hs i) rest := rfl

theorem runChanges_append (hs : HealthStreamer) (xs ys : List ChangeStateInput) :
    runChanges hs (xs ++ ys) = runChanges (runChanges hs xs) ys := by
  simp [runChanges, List.foldl_append]

theorem heapRead_runChanges_frame (ins : List ChangeStateInput) :
    ∀ (hs : HealthStreamer) (a : Addr), a < hs.heap.length → a ≠ hs.stateAddr →
    heapRead (runChanges hs ins).heap a = heapRead hs.heap a := by
  induction ins with
  | nil => intro hs a _ _; rfl
  | cons i rest ih =>
    intro hs a hlt hne
    rw [runChanges_cons, ih (ChangeState hs i) a
      (by rw [ChangeState_heap_length]; exact Nat.lt_succ_of_lt hlt)
      (by rw [ChangeState_stateAddr]; exact hne)]
    exact heapRead_ChangeState_frame hs i a hlt hne

/-- The full behaviour of a `ChangeState` sequence towards one subscriber
that stays registered with room to spare: it receives exactly the clone
addresses `hs.heap.length, …` in call order, the clones carry exactly the
successive snapshot values, and the clones are all fresh cells distinct
from the stored snapshot. -/
theorem runChanges_delivery (ins : List ChangeStateInput) :
    ∀ (hs : HealthStreamer) (j : Nat) (ch : Channel),
    WF hs →
    hs.chans[j]? = some ch →
    ch.registered = true →
    ch.closed = false →
    ch.buf.length + ins.length ≤ ch.cap →
    (runChanges hs ins).chans[j]? =
      some { ch with buf := ch.buf ++ List.range' hs.heap.length ins.length } ∧
    (List.range' hs.heap.length ins.length).map (heapRead (runChanges hs ins).heap)
      = snapshotsOf (readState hs) ins ∧
    (runChanges hs ins).stateAddr = hs.stateAddr ∧
    (runChanges hs ins).heap.length = hs.heap.length + ins.length ∧
    WF (runChanges hs ins) := by
  induction ins with
  | nil =>
    intro hs j ch hwf hch _ _ _
    refine ⟨?_, rfl, rfl, rfl, hwf⟩
    simpa [runChanges, List.range'] using hch
  | cons i rest ih =>
    intro hs j ch hwf hch hreg hop hroom
    set L := hs.heap.length with hL
    have hroom1 : ch.buf.length < ch.cap := by
      simp [List.length_cons] at hroom; omega
    have hsend : sendTo L ch = { ch with buf := ch.buf ++ [L] } := by
      simp [sendTo, hreg, hroom1]
    have hch1 : (ChangeState hs i).chans[j]? = some ({ ch with buf := ch.buf ++ [L] }) := by
      rw [ChangeState_chans, List.getElem?_map, hch]
      simp [hsend]
    have hwf1 : WF (ChangeState hs i) := ChangeState_WF hs i hwf
    have hroom2 : (ch.buf ++ [L]).length + rest.length ≤ ch.cap := by
      simp [List.length_append] at hroom ⊢; omega
    obtain ⟨ihc, ihv, ihs, ihl, ihwf⟩ :=
      ih (ChangeState hs i) j ({ ch with buf := ch.buf ++ [L] }) hwf1 hch1 (by simpa using hreg) (by simpa using hop) hroom2
    have hlen1 : (ChangeState hs i).heap.length = L + 1 := ChangeState_heap_length hs i
    have hread1 : readState (ChangeState hs i) = applyChange (readState hs) i :=
      readState_ChangeState hs i hwf
    refine ⟨?_, ?_, ?_, ?_, ?_⟩
    · rw [runChanges_cons, ihc, hlen1, List.length_cons, List.range'_succ]
      simp [List.append_assoc]
    · rw [runChanges_cons, List.length_cons, List.range'_succ, List.map_cons]
      have hfirst : heapRead (runChanges (ChangeState hs i) rest).heap L
          = applyChange (readState hs) i := by
        rw [heapRead_runChanges_frame rest (ChangeState hs i) L
          (by rw [hlen1]; exact Nat.lt_succ_self L)
          (by rw [ChangeState_stateAddr]; exact Nat.ne_of_gt hwf),
          heapRead_ChangeState_clone]
      rw [hfirst, ← hlen1, ihv, hread1, snapshotsOf]
    · rw [runChanges_cons, ihs, ChangeState_stateAddr]
    · rw [runChanges_cons, ihl, hlen1]
      simp [List.length_cons]; omega
    · rw [runChanges_cons]; exact ihwf

theorem sendTo_unregistered (a : Addr) (ch : Channel) (h : ch.registered = false) :
    sendTo a ch = ch := by
  simp [sendTo, h]

theorem sendTo_full (a : Addr) (ch : Channel) (hreg : ch.registered = true)
    (hfull : ch.cap ≤ ch.buf.length) :
    sendTo a ch = { ch with closed := true, registered := false } := by
  simp [sendTo, hreg, Nat.not_lt_of_le hfull]

/-- A channel removed from the registry is never touched again by later
`ChangeState` broadcasts. -/
theorem runChanges_unregistered (ins : List ChangeStateInput) :
    ∀ (hs : HealthStreamer) (j : Nat) (ch : Channel),
    hs.chans[j]? = some ch → ch.registered = false →
    (runChanges hs ins).chans[j]? = some ch := by
  induction ins with
  | nil => intro hs j ch hch _; exact hch
  | cons i rest ih =>
    intro hs j ch hch hunreg
    rw [runChanges_cons]
    refine ih (ChangeState hs i) j ch ?_ hunreg
    rw [ChangeState_chans, List.getElem?_map, hch]
    simp [sendTo_unregistered _ _ hunreg]

theorem pickEvent_closed_chan (p : Option Choice) (ch : Channel) (hcl : ch.closed = true) :
    pickEvent p false false ch = some Choice.chan := by
  have hready : chanReady ch = true := by simp [chanReady, hcl]
  cases p with
  | none => simp [pickEvent, hready]
  | some c => cases c <;> simp [pickEvent, hready]

/-- A session whose channel was overflow-evicted drains the buffered
items and then terminates with ResourceExhausted (callback succeeding,
no cancellation). -/
theorem streamLoop_closed_drain (heap : Heap) (cb : StreamHealthResponse → CbRes)
    (hcb : ∀ s, cb s = CbRes.ok) :
    ∀ (fuel : Nat) (sched : List Choice) (ch : Channel),
    ch.closed = true → ch.buf.length < fuel →
    streamLoop heap false false cb fuel sched ch = StreamResult.resourceExhausted := by
  intro fuel
  induction fuel with
  | zero => intro sched ch _ hlt; omega
  | succ n ih =>
    intro sched ch hcl hlt
    cases hbuf : ch.buf with
    | nil =>
      simp only [streamLoop, pickEvent_closed_chan _ _ hcl, hbuf]
    | cons a rest =>
      simp only [streamLoop, pickEvent_closed_chan _ _ hcl, hbuf, hcb]
      refine ih sched.tail { ch with buf := rest } hcl ?_
      show rest.length < n
      rw [hbuf] at hlt
      simp [List.length_cons] at hlt
      omega

theorem pickEvent_shutdown (p : Option Choice) (ch : Channel) :
    pickEvent p false true ch = some Choice.hsctx ∨
    (pickEvent p false true ch = some Choice.chan ∧ chanReady ch = true) := by
  cases p with
  | none => left; simp [pickEvent]
  | some c =>
    cases c with
    | ctx => left; simp [pickEvent]
    | hsctx => left; simp [pickEvent]
    | chan =>
      by_cases hready : chanReady ch = true
      · right; exact ⟨by simp [pickEvent, hready], hready⟩
      · left; simp [pickEvent, hready]

/-- After `Close`, a session whose channel is still open and whose caller
has not cancelled and whose callback keeps succeeding terminates with
Unavailable, under every schedule. -/
theorem streamLoop_shutdown_drain (heap : Heap) (cb : StreamHealthResponse → CbRes)
    (hcb : ∀ s, cb s = CbRes.ok) :
    ∀ (fuel : Nat) (sched : List Choice) (ch : Channel),
    ch.closed = false → ch.buf.length < fuel →
    streamLoop heap false true cb fuel sched ch = StreamResult.unavailable := by
  intro fuel
  induction fuel with
  | zero => intro sched ch _ hlt; omega
  | succ n ih =>
    intro sched ch hcl hlt
    rcases pickEvent_shutdown sched.head? ch with hpick | ⟨hpick, hready⟩
    · simp only [streamLoop, hpick]
    · cases hbuf : ch.buf with
      | nil => simp [chanReady, hbuf, hcl] at hready
      | cons a rest =>
        simp only [streamLoop, hpick, hbuf, hcb]
        refine ih sched.tail { ch with buf := rest } hcl ?_
        show rest.length < n
        rw [hbuf] at hlt
        simp [List.length_cons] at hlt
        omega

theorem sendTo_buf_head (a : Addr) (ch : Channel) (hne : ch.buf ≠ []) :
    (sendTo a ch).buf.head? = ch.buf.head? ∧ (sendTo a ch).buf ≠ [] := by
  unfold sendTo
  split_ifs with h1 h2
  · cases hbuf : ch.buf with
    | nil => exact absurd hbuf hne
    | cons x xs => simp [hbuf]
  · simp [hne]
  · simp [hne]

/-- The registration-time message stays at the head of the buffer across
any later sequence of broadcasts. -/
theorem runChanges_buf_head (ins : List ChangeStateInput) :
    ∀ (hs : HealthStreamer) (j : Nat) (ch : Channel),
    hs.chans[j]? = some ch → ch.buf ≠ [] →
    ∃ ch', (runChanges hs ins).chans[j]? = some ch' ∧ ch'.buf ≠ [] ∧
      ch'.buf.head? = ch.buf.head? := by
  induction ins with
  | nil => intro hs j ch hch hne; exact ⟨ch, hch, hne, rfl⟩
  | cons i rest ih =>
    intro hs j ch hch hne
    obtain ⟨hh, hn⟩ := sendTo_buf_head hs.heap.length ch hne
    obtain ⟨ch', h1, h2, h3⟩ := ih (ChangeState hs i) j (sendTo hs.heap.length ch)
      (by rw [ChangeState_chans, List.getElem?_map, hch]; rfl) hn
    exact ⟨ch', by rwa [runChanges_cons], h2, by rw [h3, hh]⟩

/-- Claim C5 — `ChangeState` postcondition on the stored snapshot: role is
the given role; `externallyReparentedAt` is the given unix timestamp for
PRIMARY and zero otherwise; `healthError` is the error's message, empty for
no error; `replicationLagSeconds` is the lag in whole seconds (the code
narrows through `uint32`, exact under the range hypothesis); `serving` is
the given flag.  The Go method has no return value, so no input can make it
return an error: `ChangeState` is total into `HealthStreamer`. -/
theorem c5_changestate_fields (hs : HealthStreamer) (i : ChangeStateInput)
    (hwf : WF hs) (hlag : i.lagNs / 1000000000 < 4294967296) :
    (readState (ChangeState hs i)).target.tabletType = i.tabletType ∧
    (readState (ChangeState hs i)).tabletExternallyReparentedTimestamp
      = (if i.tabletType = TabletType.PRIMARY then i.terTimestampUnix else 0) ∧
    (readState (ChangeState hs i)).realtimeStats.healthError = i.err.getD "" ∧
    (readState (ChangeState hs i)).realtimeStats.replicationLagSeconds
      = i.lagNs / 1000000000 ∧
    (readState (ChangeState hs i)).serving = i.serving := by
  rw [readState_ChangeState hs i hwf]
  refine ⟨rfl, rfl, ?_, ?_, rfl⟩
  · cases h : i.err <;> simp [applyChange, h]
  · simp [applyChange, lagSecondsU32, Nat.mod_eq_of_lt hlag]

/-- Witness for C5 at the concrete fixture. -/
theorem c5_witness :
    (readState (ChangeState exStreamer exInput)).target.tabletType = exInput.tabletType ∧
    (readState (ChangeState exStreamer exInput)).tabletExternallyReparentedTimestamp
      = (if exInput.tabletType = TabletType.PRIMARY then exInput.terTimestampUnix else 0) ∧
    (readState (ChangeState exStreamer exInput)).realtimeStats.healthError
      = exInput.err.getD "" ∧
    (readState (ChangeState exStreamer exInput)).realtimeStats.replicationLagSeconds
      = exInput.lagNs / 1000000000 ∧
    (readState (ChangeState exStreamer exInput)).serving = exInput.serving :=
  c5_changestate_fields exStreamer exInput (by decide) (by decide)

/-- Claim C8 (amended) — the stored snapshot is idempotent under a repeated
identical `ChangeState` call (same arguments and same collaborator
readings): the snapshot after two calls equals the snapshot after one.
The full streamer state is not: see the counterexample. -/
theorem c8_snapshot_idempotent (hs : HealthStreamer) (i : ChangeStateInput) (hwf : WF hs) :
    readState (ChangeState (ChangeState hs i) i) = readState (ChangeState hs i) := by
  rw [readState_ChangeState _ i (ChangeState_WF hs i hwf), readState_ChangeState hs i hwf]
  rfl

/-- Witness for C8's amended theorem at the concrete fixture. -/
theorem c8_witness :
    readState (ChangeState (ChangeState exStreamer exInput) exInput)
      = readState (ChangeState exStreamer exInput) :=
  c8_snapshot_idempotent exStreamer exInput (by decide)

/-- Claim C8 counterexample — as stated the claim is false: two identical
`ChangeState` calls (all collaborators returning identical values, `now`
included) do not leave the streamer's state equal to the state after one
call.  Each call broadcasts to the registered subscribers and appends a
history record, so the subscriber buffers, the history and the message
heap all differ. -/
theorem c8_counterexample :
    ChangeState (ChangeState exStreamer exInput) exInput ≠ ChangeState exStreamer exInput := by
  decide

/-- Claim C10 — `Open` and `Close` are idempotent lifecycle transitions:
`Open` on an already-open streamer changes nothing (context, pool and
timer included — the state is equal, so nothing was replaced or
restarted), `Close` on a closed (or never-opened) streamer changes
nothing, and only `Open` on a closed streamer / `Close` on an open one
performs the transition. -/
theorem c10_open_close_idempotent (hs : HealthStreamer) :
    (hs.opened = true → Open hs = hs) ∧
    (hs.opened = false → Close hs = hs) ∧
    Open (Open hs) = Open hs ∧
    Close (Close hs) = Close hs ∧
    (hs.opened = false → (Open hs).opened = true) ∧
    (hs.opened = true → (Close hs).opened = false) := by
  unfold Open Close
  by_cases h : hs.opened <;> by_cases h2 : hs.signalWhenSchemaChange <;> simp [h, h2]

/-- Witness for C10 at the concrete fixture (open streamer). -/
theorem c10_witness :
    (exStreamer.opened = true → Open exStreamer = exStreamer) ∧
    (exStreamer.opened = false → Close exStreamer = exStreamer) ∧
    Open (Open exStreamer) = Open exStreamer ∧
    Close (Close exStreamer) = Close exStreamer ∧
    (exStreamer.opened = false → (Open exStreamer).opened = true) ∧
    (exStreamer.opened = true → (Close exStreamer).opened = false) :=
  c10_open_close_idempotent exStreamer

/-- Claim C9 — `AppendDetails` appends rows only for non-primary roles
(PRIMARY returns the input unchanged, and in general the input is only
ever extended); for non-primary roles it appends a separate
"Replication Error" row exactly when `healthError` is non-empty; and on
the §8 example (degraded 30s, unhealthy 60s, lag 45s, REPLICA) the lag
row is classified degraded (`unhappy`), not unhealthy, not healthy. -/
theorem c9_appenddetails (hs : HealthStreamer) (details : List kv) :
    ((readState hs).target.tabletType = TabletType.PRIMARY →
      AppendDetails hs details = details) ∧
    ((AppendDetails hs details).take details.length = details) ∧
    ((readState hs).target.tabletType ≠ TabletType.PRIMARY →
      ((AppendDetails hs details).drop details.length).countP
          (fun r => r.Key = "Replication Error")
        = (if (readState hs).realtimeStats.healthError = "" then 0 else 1)) ∧
    AppendDetails c9Streamer [] =
      [{ Key := "Replication Lag", Class := HealthClass.unhappy, Value := "45s" }] := by
  refine ⟨?_, ?_, ?_, by decide⟩
  · intro h
    simp [AppendDetails, h]
  · by_cases h1 : (readState hs).target.tabletType = TabletType.PRIMARY
    · simp [AppendDetails, h1]
    · by_cases h2 : (readState hs).realtimeStats.healthError = ""
      · simp [AppendDetails, h1, h2, List.take_left]
      · simp [AppendDetails, h1, h2, List.append_assoc, List.take_left]
  · intro h
    by_cases h2 : (readState hs).realtimeStats.healthError = ""
    · simp [AppendDetails, h, h2, List.drop_left, List.countP, List.countP.go]
    · simp [AppendDetails, h, h2, List.append_assoc, List.drop_left, List.countP,
        List.countP.go]

/-- Witness for C9 at the concrete classification fixture (REPLICA, 45s
lag, thresholds 30s/60s, empty health error). -/
theorem c9_witness :
    (AppendDetails c9Streamer []).take 0 = [] ∧
    ((AppendDetails c9Streamer []).drop 0).countP (fun r => r.Key = "Replication Error")
      = (if (readState c9Streamer).realtimeStats.healthError = "" then 0 else 1) ∧
    AppendDetails c9Streamer [] =
      [{ Key := "Replication Lag", Class := HealthClass.unhappy, Value := "45s" }] :=
  ⟨(c9_appenddetails c9Streamer []).2.1,
   (c9_appenddetails c9Streamer []).2.2.1 (by decide),
   (c9_appenddetails c9Streamer []).2.2.2⟩

/-- Claim C7 — a successful registration (streamer open), with any number
of snapshots already on the heap: the new subscriber's channel holds as
its first (and only) buffered item a freshly allocated clone of the most
recent stored snapshot (equal in value, distinct cell from the stored
one), and that item stays at the head of the buffer across every later
broadcast, so the initial send precedes all later deliveries. -/
theorem c7_register_initial_snapshot (hs : HealthStreamer)
    (hwf : WF hs) (hopen : hs.opened = true) :
    (register hs).2 = some (hs.chans.length, hs.ctxGen) ∧
    (register hs).1.chans[hs.chans.length]? =
      some { cap := hs.bufferSize, buf := [hs.heap.length], closed := false,
             registered := true } ∧
    heapRead (register hs).1.heap hs.heap.length = readState hs ∧
    hs.heap.length ≠ hs.stateAddr ∧
    (∀ ins : List ChangeStateInput, ∃ ch',
      (runChanges (register hs).1 ins).chans[hs.chans.length]? = some ch' ∧
      ch'.buf.head? = some hs.heap.length) := by
  have hreg : register hs =
      ({ hs with heap := hs.heap ++ [readState hs], chans := hs.chans ++ [freshChannel hs] },
       some (hs.chans.length, hs.ctxGen)) := by
    rw [register, if_pos hopen]
  refine ⟨by rw [hreg], ?_, ?_, ?_, ?_⟩
  · rw [hreg]
    exact List.getElem?_concat_length _ _
  · rw [hreg]
    exact heapRead_append_self hs.heap (readState hs)
  · exact Nat.ne_of_gt hwf
  · intro ins
    obtain ⟨ch', h1, h2, h3⟩ := runChanges_buf_head ins (register hs).1 hs.chans.length
      (freshChannel hs)
      (by rw [hreg]; exact List.getElem?_concat_length _ _) (by simp [freshChannel])
    exact ⟨ch', h1, by rw [h3]; rfl⟩

/-- Witness for C7 at the concrete fixture. -/
theorem c7_witness :
    (register exStreamer).2 = some (exStreamer.chans.length, exStreamer.ctxGen) ∧
    (register exStreamer).1.chans[exStreamer.chans.length]? =
      some { cap := exStreamer.bufferSize, buf := [exStreamer.heap.length], closed := false,
             registered := true } ∧
    heapRead (register exStreamer).1.heap exStreamer.heap.length = readState exStreamer ∧
    exStreamer.heap.length ≠ exStreamer.stateAddr ∧
    (∀ ins : List ChangeStateInput, ∃ ch',
      (runChanges (register exStreamer).1 ins).chans[exStreamer.chans.length]? = some ch' ∧
      ch'.buf.head? = some exStreamer.heap.length) :=
  c7_register_initial_snapshot exStreamer (by decide) (by decide)

/-- Claim C6 (amended) — a `Stream` call made before `Open` or after
`Close` fails registration and returns Unavailable without entering the
receive loop; and after `Close`, an in-flight session whose caller has
not cancelled, whose channel was not overflow-evicted and whose sink
keeps succeeding terminates with Unavailable under every select
schedule, draining at most its buffered items first.  (The unamended
claim — *every* in-flight call ends Unavailable — fails when the select
delivers a buffered snapshot to a sink that errors: see the
counterexample.) -/
theorem c6_unavailable :
    (∀ (hs : HealthStreamer) (ctxDone : Bool) (cb : StreamHealthResponse → CbRes)
       (fuel : Nat) (sched : List Choice), hs.opened = false →
       (StreamCall hs ctxDone cb fuel sched).2 = StreamResult.unavailable) ∧
    (∀ (heap : Heap) (cb : StreamHealthResponse → CbRes) (fuel : Nat)
       (sched : List Choice) (ch : Channel), (∀ s, cb s = CbRes.ok) →
       ch.closed = false → ch.buf.length < fuel →
       streamLoop heap false true cb fuel sched ch = StreamResult.unavailable) := by
  constructor
  · intro hs ctxDone cb fuel sched hcl
    have hr : register hs = (hs, none) := by
      rw [register, if_neg (by simp [hcl])]
    simp [StreamCall, hr]
  · intro heap cb fuel sched ch hcb hclosed hfuel
    exact streamLoop_shutdown_drain heap cb hcb fuel sched ch hclosed hfuel

/-- Witness for C6: a concrete closed-streamer `Stream` call, and a
concrete in-flight drain after shutdown. -/
theorem c6_witness :
    (StreamCall c6ClosedStreamer false (fun _ => CbRes.ok) 5 []).2
      = StreamResult.unavailable ∧
    streamLoop [exSnap] false true (fun _ => CbRes.ok) 3 [Choice.chan]
      { cap := 3, buf := [0], closed := false, registered := true }
      = StreamResult.unavailable :=
  ⟨c6_unavailable.1 c6ClosedStreamer false (fun _ => CbRes.ok) 5 [] (by decide),
   c6_unavailable.2 [exSnap] (fun _ => CbRes.ok) 3 [Choice.chan]
     ({ cap := 3, buf := [0], closed := false, registered := true })
     (fun _ => rfl) (by decide) (by decide)⟩

/-- Claim C6 counterexample — after `Close` an in-flight `Stream` call
does not always terminate with Unavailable: with one snapshot still
buffered, a select schedule that picks the channel case first delivers
it to the sink, and a sink error is propagated verbatim instead. -/
theorem c6_counterexample :
    streamLoop [exSnap] false true (fun _ => CbRes.err "sink failure") 3 [Choice.chan]
      ({ cap := 3, buf := [0], closed := false, registered := true })
      = StreamResult.sinkErr "sink failure" ∧
    StreamResult.sinkErr "sink failure" ≠ StreamResult.unavailable :=
  ⟨rfl, by decide⟩

/-- Claim C1 (amended) — for every `ChangeState` sequence, a subscriber
registered throughout whose buffer never fills receives exactly the
broadcast clone addresses, appended in call order, and the clones carry
exactly the successive snapshot values; every delivered clone is a cell
distinct from the stored snapshot (so mutating the stored state cannot
affect a delivered snapshot) and the per-broadcast clones are pairwise
distinct cells.  (The unamended claim also asks that distinct
subscribers' deliveries be mutation-independent of each other; that part
is false — one clone per broadcast is shared by every subscriber — see
the counterexample.) -/
theorem c1_inorder_delivery (hs : HealthStreamer) (ins : List ChangeStateInput)
    (j : Nat) (ch : Channel) (hwf : WF hs) (hch : hs.chans[j]? = some ch)
    (hreg : ch.registered = true) (hop : ch.closed = false)
    (hroom : ch.buf.length + ins.length ≤ ch.cap) :
    ((runChanges hs ins).chans[j]? =
      some { ch with buf := ch.buf ++ List.range' hs.heap.length ins.length }) ∧
    ((List.range' hs.heap.length ins.length).map (heapRead (runChanges hs ins).heap)
      = snapshotsOf (readState hs) ins) ∧
    (∀ a ∈ List.range' hs.heap.length ins.length, a ≠ (runChanges hs ins).stateAddr) ∧
    (List.range' hs.heap.length ins.length).Nodup := by
  obtain ⟨h1, h2, h3, h4, h5⟩ := runChanges_delivery ins hs j ch hwf hch hreg hop hroom
  refine ⟨h1, h2, ?_, List.nodup_range' _ _⟩
  intro a ha
  rw [h3]
  have hmem := List.mem_range'_1.mp ha
  exact Nat.ne_of_gt (lt_of_lt_of_le hwf hmem.1)

/-- Witness for C1 at the concrete fixture: two broadcasts into a fresh
capacity-3 subscriber. -/
theorem c1_witness :
    ((runChanges exStreamer [exInput, c9Input]).chans[0]? =
      some { exChan with buf := exChan.buf ++ List.range' exStreamer.heap.length 2 }) ∧
    ((List.range' exStreamer.heap.length 2).map
        (heapRead (runChanges exStreamer [exInput, c9Input]).heap)
      = snapshotsOf (readState exStreamer) [exInput, c9Input]) ∧
    (∀ a ∈ List.range' exStreamer.heap.length 2,
      a ≠ (runChanges exStreamer [exInput, c9Input]).stateAddr) ∧
    (List.range' exStreamer.heap.length 2).Nodup :=
  c1_inorder_delivery exStreamer [exInput, c9Input] 0 exChan
    (by decide) (by decide) (by decide) (by decide) (by decide)

/-- Claim C1 counterexample — the two registered subscribers of
`exStreamer` receive the *same* heap cell (address 1) from one
broadcast: the code clones the state once per broadcast and sends the
same pointer to every client.  Mutating that delivered snapshot through
subscriber 0's reference (modelled as a heap write at its delivered
address) therefore changes what subscriber 1 observes at its own
delivered address, refuting mutation-independence between delivered
snapshots. -/
theorem c1_shared_clone_counterexample :
    ((ChangeState exStreamer exInput).chans[0]?).map (fun ch => ch.buf) = some [1] ∧
    ((ChangeState exStreamer exInput).chans[1]?).map (fun ch => ch.buf) = some [1] ∧
    heapRead (heapWrite (ChangeState exStreamer exInput).heap 1
        ({ exSnap with serving := true })) 1
      ≠ heapRead (ChangeState exStreamer exInput).heap 1 := by
  refine ⟨by decide, by decide, by decide⟩

/-- Claim C2 (amended) — overflow eviction.  A subscriber of capacity `B`
that reads nothing holds the registration-time snapshot in one buffer
slot, so `B` further broadcasts (not `B+1`) overflow it: broadcasts
`1..B-1` fill the buffer, and during the `B`-th the Broadcaster closes
the channel and removes it from the registry.  Subsequent broadcasts do
not touch it, and the subscriber's session loop drains the `B` buffered
snapshots and terminates with ResourceExhausted. -/
theorem c2_overflow_eviction (hs : HealthStreamer) (j : Nat) (a0 : Addr) (B : Nat)
    (ins1 : List ChangeStateInput) (iLast : ChangeStateInput)
    (extra : List ChangeStateInput)
    (cb : StreamHealthResponse → CbRes) (fuel : Nat) (sched : List Choice)
    (hwf : WF hs)
    (hch : hs.chans[j]? = some { cap := B, buf := [a0], closed := false, registered := true })
    (hB : ins1.length + 1 = B)
    (hcb : ∀ s, cb s = CbRes.ok)
    (hfuel : B < fuel) :
    ((runChanges hs (ins1 ++ [iLast])).chans[j]? =
      some { cap := B, buf := [a0] ++ List.range' hs.heap.length ins1.length,
             closed := true, registered := false }) ∧
    ((runChanges (runChanges hs (ins1 ++ [iLast])) extra).chans[j]? =
      (runChanges hs (ins1 ++ [iLast])).chans[j]?) ∧
    (streamLoop (runChanges hs (ins1 ++ [iLast])).heap false false cb fuel sched
        ({ cap := B, buf := [a0] ++ List.range' hs.heap.length ins1.length,
           closed := true, registered := false })
      = StreamResult.resourceExhausted) := by
  obtain ⟨h1, h2, h3, h4, h5⟩ := runChanges_delivery ins1 hs j
    ({ cap := B, buf := [a0], closed := false, registered := true }) hwf hch rfl rfl
    (by simp [List.length_cons]; omega)
  have hfull : (runChanges hs ins1).chans[j]? =
      some { cap := B, buf := [a0] ++ List.range' hs.heap.length ins1.length,
             closed := false, registered := true } := h1
  have hlenfull : ([a0] ++ List.range' hs.heap.length ins1.length).length = B := by
    simp [List.length_append, List.length_range']; omega
  have hevict : (runChanges hs (ins1 ++ [iLast])).chans[j]? =
      some { cap := B, buf := [a0] ++ List.range' hs.heap.length ins1.length,
             closed := true, registered := false } := by
    rw [runChanges_append, runChanges_cons, runChanges_nil,
      ChangeState_chans, List.getElem?_map, hfull]
    have hst := sendTo_full (runChanges hs ins1).heap.length
      ({ cap := B, buf := [a0] ++ List.range' hs.heap.length ins1.length,
         closed := false, registered := true }) rfl (by simp; omega)
    simpa using hst
  refine ⟨hevict, ?_, ?_⟩
  · rw [runChanges_unregistered extra _ j _ hevict rfl, hevict]
  · refine streamLoop_closed_drain _ cb hcb fuel sched _ rfl ?_
    rw [hlenfull]; exact hfuel

/-- Witness for C2's amended theorem: `B = 1`, so the single broadcast
(`ins1 = []`) evicts the subscriber, later broadcasts leave it alone,
and the session drains one snapshot and ends ResourceExhausted. -/
theorem c2_witness :
    ((runChanges c2Streamer ([] ++ [exInput])).chans[0]? =
      some { cap := 1, buf := [1] ++ List.range' c2Streamer.heap.length 0,
             closed := true, registered := false }) ∧
    ((runChanges (runChanges c2Streamer ([] ++ [exInput])) [c9Input]).chans[0]? =
      (runChanges c2Streamer ([] ++ [exInput])).chans[0]?) ∧
    (streamLoop (runChanges c2Streamer ([] ++ [exInput])).heap false false
        (fun _ => CbRes.ok) 2 []
        ({ cap := 1, buf := [1] ++ List.range' c2Streamer.heap.length 0,
           closed := true, registered := false })
      = StreamResult.resourceExhausted) :=
  c2_overflow_eviction c2Streamer 0 1 1 [] exInput [c9Input] (fun _ => CbRes.ok) 2 []
    (by decide) (by decide) (by decide) (fun _ => rfl) (by decide)

/-- Claim C2 counterexample — with capacity `B = 1`, the *first* broadcast
after registration already closes the channel and removes the subscriber
(its one buffer slot holds the registration snapshot), where the claim
says this happens only during the second (`B+1`-th) broadcast; by then
the channel is closed and out of the registry, and the second broadcast
leaves it untouched. -/
theorem c2_counterexample :
    ((ChangeState c2Streamer exInput).chans[0]?).map (fun ch => (ch.closed, ch.registered))
      = some (true, false) ∧
    (ChangeState (ChangeState c2Streamer exInput) c9Input).chans[0]?
      = (ChangeState c2Streamer exInput).chans[0]? := by
  exact ⟨by decide, by decide⟩

theorem reloadApply_stateAddr (hs : HealthStreamer) (T : List String) :
    (reloadApply hs T).stateAddr = hs.stateAddr := rfl

theorem reloadApply_chans (hs : HealthStreamer) (T : List String) :
    (reloadApply hs T).chans = hs.chans.map (sendTo hs.heap.length) := by
  simp [reloadApply, broadCastToClients, heapWrite]

theorem reloadApply_heap_length (hs : HealthStreamer) (T : List String) :
    (reloadApply hs T).heap.length = hs.heap.length + 1 := by
  simp [reloadApply, broadCastToClients, heapWrite]

theorem reloadApply_mid (hs : HealthStreamer) (T : List String) (hwf : WF hs) :
    heapRead (heapWrite hs.heap hs.stateAddr (setTables (readState hs) T) ++
        [setTables (readState hs) T]) hs.stateAddr
      = setTables (readState hs) T := by
  unfold WF at hwf
  rw [heapRead_append_lt _ _ _ (by rw [heapWrite_length]; exact hwf),
    heapRead_write_self _ _ _ hwf]

theorem broadCast_heap (hs : HealthStreamer) (a : Addr) :
    (broadCastToClients hs a).heap = hs.heap := rfl

theorem broadCast_stateAddr (hs : HealthStreamer) (a : Addr) :
    (broadCastToClients hs a).stateAddr = hs.stateAddr := rfl

theorem readState_reloadApply (hs : HealthStreamer) (T : List String) (hwf : WF hs) :
    readState (reloadApply hs T) = setTables (readState hs) [] := by
  have hwf2 : hs.stateAddr < hs.heap.length := hwf
  show heapRead _ _ = _
  simp only [reloadApply, broadCast_heap, broadCast_stateAddr]
  rw [heapRead_write_self _ _ _ (by simp [heapWrite]; exact Nat.lt_succ_of_lt hwf2)]
  rw [reloadApply_mid hs T hwf]
  simp [setTables]

theorem heapRead_reloadApply_clone (hs : HealthStreamer) (T : List String) (hwf : WF hs) :
    heapRead (reloadApply hs T).heap hs.heap.length = setTables (readState hs) T := by
  have hwf2 : hs.stateAddr < hs.heap.length := hwf
  show heapRead _ _ = _
  simp only [reloadApply, broadCast_heap, broadCast_stateAddr]
  rw [heapRead_write_ne _ _ _ _ (Nat.ne_of_gt hwf2)]
  have hself := heapRead_append_self
    (heapWrite hs.heap hs.stateAddr (setTables (readState hs) T))
    (setTables (readState hs) T)
  rw [heapWrite_length] at hself
  exact hself

/-- Under the success hypotheses (already initialized), `reload` reduces to
the committed-transaction mutation tail with no error. -/
theorem reload_success (hs : HealthStreamer) (db : ReloadDB)
    (hrole : (readState hs).target.tabletType = TabletType.PRIMARY)
    (hconn : db.connOk = true) (hinit : hs.initSuccess = true)
    (hdet : db.detectOk = true) (hne : db.detectTables.isEmpty = false)
    (hb : db.beginOk = true) (hd : db.delOk = true) (hu : db.updOk = true)
    (hc : db.commitOk = true) :
    reload hs db = (reloadApply hs db.detectTables, none) := by
  simp [reload, hrole, hconn, hinit, hdet, hne, hb, hd, hu, hc]

theorem applyChange_tables (s : StreamHealthResponse) (i : ChangeStateInput) :
    (applyChange s i).realtimeStats.tableSchemaChanged
      = s.realtimeStats.tableSchemaChanged := rfl

theorem c3core (hs : HealthStreamer) (db : ReloadDB)
    (hwf : WF hs)
    (hrole : (readState hs).target.tabletType = TabletType.PRIMARY)
    (hconn : db.connOk = true)
    (hinit : hs.initSuccess = true)
    (hdet : db.detectOk = true)
    (hne : db.detectTables.isEmpty = false)
    (hb : db.beginOk = true) (hd : db.delOk = true)
    (hu : db.updOk = true) (hc : db.commitOk = true) :
    ((reload hs db).2 = none) ∧
    ((reload hs db).1.heap.length = hs.heap.length + 1) ∧
    (heapRead (reload hs db).1.heap hs.heap.length
      = setTables (readState hs) db.detectTables) ∧
    (readState (reload hs db).1 = setTables (readState hs) []) ∧
    (∀ (j : Nat) (ch : Channel), hs.chans[j]? = some ch → ch.registered = true →
      ch.buf.length < ch.cap →
      (reload hs db).1.chans[j]? = some { ch with buf := ch.buf ++ [hs.heap.length] }) ∧
    (∀ i, (applyChange (readState (reload hs db).1) i).realtimeStats.tableSchemaChanged
      = []) := by
  rw [reload_success hs db hrole hconn hinit hdet hne hb hd hu hc]
  refine ⟨rfl, reloadApply_heap_length hs db.detectTables,
    heapRead_reloadApply_clone hs db.detectTables hwf,
    readState_reloadApply hs db.detectTables hwf, ?_, ?_⟩
  · intro j ch hch hregj hroomj
    rw [reloadApply_chans, List.getElem?_map, hch]
    simp [sendTo, hregj, hroomj]
  · intro i
    rw [applyChange_tables, readState_reloadApply hs db.detectTables hwf]
    rfl

/-- A drift cycle that performs the one-time schema-shadow init
successfully behaves exactly like one that starts initialized (on the
primary, with the connection acquired). -/
theorem reload_init_step (hs : HealthStreamer) (db : ReloadDB)
    (h0 : hs.initSuccess = false)
    (hrole : (readState hs).target.tabletType = TabletType.PRIMARY)
    (hconn : db.connOk = true)
    (hok : InitSchemaLocked db.initStmts = (true, none)) :
    reload hs db = reload { hs with initSuccess := true } db := by
  have hrole2 : (heapRead hs.heap hs.stateAddr).target.tabletType = TabletType.PRIMARY := hrole
  simp [reload, readState, h0, hok, hrole2, hconn]

/-- Claim C3 — a successful drift-detection cycle (role PRIMARY, non-empty
changed-table list, transaction committed): `reload` returns no error,
allocates exactly one clone (one broadcast), every registered subscriber
with room receives exactly that clone's address, the clone carries
`tableSchemaChanged = detectTables`, and the stored snapshot ends with
the transient field already cleared — so every subsequent broadcast
(`ChangeState` clones, `SetUnhealthyThreshold` clones, registration
sends, all of which copy the stored snapshot) carries an empty
`tableSchemaChanged`. -/
theorem c3_drift_broadcast (hs : HealthStreamer) (db : ReloadDB)
    (hwf : WF hs)
    (hrole : (readState hs).target.tabletType = TabletType.PRIMARY)
    (hconn : db.connOk = true)
    (hinitOk : hs.initSuccess = true ∨ InitSchemaLocked db.initStmts = (true, none))
    (hdet : db.detectOk = true)
    (hne : db.detectTables.isEmpty = false)
    (hb : db.beginOk = true) (hd : db.delOk = true)
    (hu : db.updOk = true) (hc : db.commitOk = true) :
    ((reload hs db).2 = none) ∧
    ((reload hs db).1.heap.length = hs.heap.length + 1) ∧
    (heapRead (reload hs db).1.heap hs.heap.length
      = setTables (readState hs) db.detectTables) ∧
    (readState (reload hs db).1 = setTables (readState hs) []) ∧
    (∀ (j : Nat) (ch : Channel), hs.chans[j]? = some ch → ch.registered = true →
      ch.buf.length < ch.cap →
      (reload hs db).1.chans[j]? = some { ch with buf := ch.buf ++ [hs.heap.length] }) ∧
    (∀ i, (applyChange (readState (reload hs db).1) i).realtimeStats.tableSchemaChanged
      = []) := by
  by_cases h0 : hs.initSuccess = true
  · exact c3core hs db hwf hrole hconn h0 hdet hne hb hd hu hc
  · have h1 : hs.initSuccess = false := by
      cases hb2 : hs.initSuccess
      · rfl
      · exact absurd hb2 h0
    rcases hinitOk with h | hio
    · exact absurd h h0
    · rw [reload_init_step hs db h1 hrole hconn hio]
      exact c3core { hs with initSuccess := true } db hwf hrole hconn rfl hdet hne hb hd hu hc

/-- Witness for C3 at the concrete fixture. -/
theorem c3_witness :
    ((reload c3Streamer c3DB).2 = none) ∧
    ((reload c3Streamer c3DB).1.heap.length = c3Streamer.heap.length + 1) ∧
    (heapRead (reload c3Streamer c3DB).1.heap c3Streamer.heap.length
      = setTables (readState c3Streamer) c3DB.detectTables) ∧
    (readState (reload c3Streamer c3DB).1 = setTables (readState c3Streamer) []) ∧
    (∀ (j : Nat) (ch : Channel), c3Streamer.chans[j]? = some ch → ch.registered = true →
      ch.buf.length < ch.cap →
      (reload c3Streamer c3DB).1.chans[j]? =
        some { ch with buf := ch.buf ++ [c3Streamer.heap.length] }) ∧
    (∀ i, (applyChange (readState (reload c3Streamer c3DB).1) i).realtimeStats.tableSchemaChanged
      = []) :=
  c3_drift_broadcast c3Streamer c3DB (by decide) (by decide) (by decide)
    (Or.inl (by decide)) (by decide) (by decide) (by decide) (by decide)
    (by decide) (by decide)

/-- Claim C4 — whenever any backing-store step of a drift-detection cycle
fails (connection acquisition, schema-shadow init, the detection query,
or any of begin/clear/rewrite/commit), `reload` returns that error,
performs no broadcast (the subscriber registry and every channel are
untouched, and no clone is allocated: the heap is unchanged) and leaves
the stored snapshot unchanged — in particular `tableSchemaChanged` stays
as it was.  The caller (`Open`'s tick callback) only logs the error, so
the process survives and the next tick retries. -/
theorem c4_reload_error_no_mutation (hs : HealthStreamer) (db : ReloadDB)
    (herr : (reload hs db).2 ≠ none) :
    (reload hs db).1.heap = hs.heap ∧
    (reload hs db).1.chans = hs.chans ∧
    (reload hs db).1.stateAddr = hs.stateAddr ∧
    readState (reload hs db).1 = readState hs := by
  by_cases hrole : (readState hs).target.tabletType = TabletType.PRIMARY
  · by_cases hconn : db.connOk
    · by_cases hinit : hs.initSuccess
      · by_cases hdet : db.detectOk <;> by_cases hemp : db.detectTables.isEmpty <;>
          by_cases hb : db.beginOk <;> by_cases hd : db.delOk <;>
          by_cases hu : db.updOk <;> by_cases hc : db.commitOk <;>
          simp_all [reload, readState]
      · cases heq : InitSchemaLocked db.initStmts with
        | mk ok e =>
          cases e with
          | none =>
            by_cases hdet : db.detectOk <;> by_cases hemp : db.detectTables.isEmpty <;>
              by_cases hb : db.beginOk <;> by_cases hd : db.delOk <;>
              by_cases hu : db.updOk <;> by_cases hc : db.commitOk <;>
              simp_all [reload, readState]
          | some msg =>
            simp_all [reload, readState]
    · simp_all [reload, readState]
  · simp_all [reload]

/-- Witness for C4 at the concrete fixture (`upd` fails, so the
transaction aborts). -/
theorem c4_witness :
    (reload c3Streamer c4DB).1.heap = c3Streamer.heap ∧
    (reload c3Streamer c4DB).1.chans = c3Streamer.chans ∧
    (reload c3Streamer c4DB).1.stateAddr = c3Streamer.stateAddr ∧
    readState (reload c3Streamer c4DB).1 = readState c3Streamer :=
  c4_reload_error_no_mutation c3Streamer c4DB (by decide)
